import Mathlib

/-!
Verification development for the `wifi_interface` module of the esp-wifi
crate: a blocking adapter over a radio driver and a poll-driven network
stack (smoltcp).  The definitions below are a shallow embedding of
`src/wifi_interface.rs`; external collaborators (the smoltcp engine and
the radio driver) are modelled at the interface described in the design
document, with their responses passed in as explicit scripts.
-/

namespace EspWifi

/-- Errors of the smoltcp engine (collaborator).  Only the shape matters
here: a small closed set of error codes that the wrapper types wrap. -/
inductive SmolErr
  | Exhausted
  | Illegal
  | Truncated
deriving DecidableEq, Repr

/-- Mirror of `WifiError` in the source: an opaque numeric driver failure
code, or a wrapped engine error. -/
inductive WifiError
  | Unknown (code : Int)
  | SmolTcpError (e : SmolErr)
deriving DecidableEq, Repr

/-- Mirror of `IoError` in the source: a wrapped engine error, or the
socket-closed classification. -/
inductive IoError
  | Other (e : SmolErr)
  | SocketClosed
deriving DecidableEq, Repr

/-! ## Ephemeral port allocator (`Network::next_local_port`) -/

/-- Shallow embedding of `Network::next_local_port`.  The Rust code
increments the stored `local_port`, resets it to 41000 when the
incremented value equals 65535, and returns the stored value.  The
result pair is (returned port, new counter state); in the source both
are the same cell. -/
def next_local_port (local_port : Nat) : Nat × Nat :=
  let p := local_port + 1
  let p' := if p = 65535 then 41000 else p
  (p', p')

/-- Counter state after `k` calls to `next_local_port`, starting at `s`. -/
def port_state (s : Nat) : Nat → Nat
  | 0 => s
  | k + 1 => port_state (next_local_port s).2 k

/-- Value returned by the `(k+1)`-th call to `next_local_port` when the
counter started at `s`. -/
def port_return (s k : Nat) : Nat :=
  (next_local_port (port_state s k)).1

/-! ## Configuration (`Wifi::set_configuration` / `get_configuration`) -/

/-- Mirror of `embedded_svc::wifi::Configuration` as used in the source:
only the `Client` variant carries data the module uses (ssid and
password, modelled as byte lists); the other variants are opaque. -/
inductive Configuration
  | None
  | Client (ssid password : List Nat)
  | AccessPoint (c : Nat)
  | Mixed (c a : Nat)
deriving DecidableEq, Repr

/-- Outcome of `set_configuration`: success, a typed error, or an
unrecoverable fault (the source's `panic!` arms). -/
inductive SetConfRes
  | ok
  | err (e : WifiError)
  | fault
deriving DecidableEq, Repr

/-- Shallow embedding of `Wifi::set_configuration`.  `connect` models the
radio driver's `wifi_connect(ssid, password) -> status_code`
(collaborator; 0 means success).  The source first stores
`self.current_config = conf.clone()`, then matches on the variant:
non-client variants abort, the client variant issues the connect request
and turns a non-zero code into `WifiError::Unknown`.  The result pair is
(new `current_config`, outcome). -/
def set_configuration (connect : List Nat → List Nat → Int)
    (conf : Configuration) : Configuration × SetConfRes :=
  let current_config := conf
  match conf with
  | .None => (current_config, .fault)
  | .Client ssid password =>
    let res := connect ssid password
    if res ≠ 0 then (current_config, .err (.Unknown res))
    else (current_config, .ok)
  | .AccessPoint _ => (current_config, .fault)
  | .Mixed _ _ => (current_config, .fault)

/-- Shallow embedding of `Wifi::get_configuration`: returns the stored
`current_config`. -/
def get_configuration (current_config : Configuration) : Configuration :=
  current_config

/-! ## The engine step scripts

Each blocking loop in the source repeatedly calls
`Interface::poll(now) -> Result<bool, smoltcp::Error>` (collaborator).
We model a run of such a loop against an explicit finite script of step
results; a loop that exhausts its script without reaching its exit is
modelled as `none` (it would keep spinning). -/

/-- One engine step result: `Except.ok b` with `b` = "has more work",
or an engine error. -/
abbrev StepRes := Except SmolErr Bool

/-- Shallow embedding of the `Socket::flush` loop: step until a step
returns `Ok(false)`; an `Err` or `Ok(true)` step does not break the
loop.  Returns the number of steps consumed, or `none` when the script
is exhausted before any step returns `Ok(false)`. -/
def flush_run : List StepRes → Option Nat
  | [] => none
  | r :: rs =>
    match r with
    | .ok false => some 1
    | _ =>
      match flush_run rs with
      | some k => some (k + 1)
      | none => none

/-- Shallow embedding of `Socket::flush` itself: once its loop
terminates it returns `Ok(())`; there is no error path. -/
def socket_flush (steps : List StepRes) : Option (Except IoError Unit) :=
  match flush_run steps with
  | some _ => some (.ok ())
  | none => none

/-! ## Engine-interaction order per loop iteration

Each loop body in the source performs a fixed sequence of interactions
with the shared engine.  We record that sequence, in source order, as a
list of abstract operations. -/

/-- Abstract engine interactions a loop iteration performs. -/
inductive EngineOp
  | dhcpPoll
  | engineStep
  | flagsCheck
deriving DecidableEq, Repr

/-- Interactions of one iteration of `Socket::work` / `Network::work`
(the loop used by `open` and `disconnect`): `poll_dhcp` first, then one
engine `poll`. -/
def work_iter_ops : List EngineOp := [.dhcpPoll, .engineStep]

/-- Interactions of one iteration of `read`'s wait loop: one engine
`poll` (unwrapped), then the socket-flag checks.  No DHCP drain. -/
def read_wait_iter_ops : List EngineOp := [.engineStep, .flagsCheck]

/-- Interactions of one iteration of `write`'s wait loop: one engine
`poll` (unwrapped), then the socket-flag checks.  No DHCP drain. -/
def write_wait_iter_ops : List EngineOp := [.engineStep, .flagsCheck]

/-- Interactions of one iteration of the post-wait drain loop of `read`
and `write`: one engine `poll` only. -/
def drain_iter_ops : List EngineOp := [.engineStep]

/-- Interactions of one iteration of `flush`'s loop: one engine `poll`
only. -/
def flush_iter_ops : List EngineOp := [.engineStep]

/-- `true` when an iteration's engine interactions include a DHCP
drain. -/
def ops_drain_dhcp (ops : List EngineOp) : Bool :=
  ops.any (fun o =>
    match o with
    | .dhcpPoll => true
    | _ => false)

/-- `true` when an iteration's engine interactions include an engine
time-step. -/
def ops_step_engine (ops : List EngineOp) : Bool :=
  ops.any (fun o =>
    match o with
    | .engineStep => true
    | _ => false)

/-! ## Blocking socket read and write -/

/-- Snapshot of the receive-side socket flags read in one iteration of
`read`'s wait loop, in the order the source reads them:
`(socket.may_recv(), socket.is_open(), socket.can_recv())`. -/
structure RecvFlags where
  may_recv : Bool
  is_open : Bool
  can_recv : Bool
deriving DecidableEq, Repr

/-- Snapshot of the send-side socket flags read in one iteration of
`write`'s wait loop: `(socket.may_send(), socket.is_open(),
socket.can_send())`. -/
structure SendFlags where
  may_send : Bool
  is_open : Bool
  can_send : Bool
deriving DecidableEq, Repr

/-- Outcome of one iteration of a wait loop: an unrecoverable fault (the
source's `.unwrap()` on a failed engine step), a successful exit from
the loop, a socket-closed failure, or another spin of the loop. -/
inductive WaitStepRes
  | fault
  | exitLoop
  | closed
  | again
deriving DecidableEq, Repr

/-- One iteration of `read`'s wait loop.  The source first performs
`poll(...).unwrap()` — an engine error is an unrecoverable fault — then
reads the flags and checks, in order: `may_recv` (break), `!is_open`
(SocketClosed), `!can_recv` (SocketClosed), else it loops again. -/
def read_wait_step (poll : StepRes) (f : RecvFlags) : WaitStepRes :=
  match poll with
  | .error _ => .fault
  | .ok _ =>
    if f.may_recv then .exitLoop
    else if !f.is_open then .closed
    else if !f.can_recv then .closed
    else .again

/-- One iteration of `write`'s wait loop, symmetric to `read`'s:
`poll(...).unwrap()`, then `may_send` (break), `!is_open`
(SocketClosed), `!can_send` (SocketClosed), else loop again. -/
def write_wait_step (poll : StepRes) (f : SendFlags) : WaitStepRes :=
  match poll with
  | .error _ => .fault
  | .ok _ =>
    if f.may_send then .exitLoop
    else if !f.is_open then .closed
    else if !f.can_send then .closed
    else .again

/-- One iteration of the `work` loop used by `open` and `disconnect`:
the DHCP poll result is discarded via `.ok()`, then the engine step's
result is matched with `if let Ok(false) = res` — only `Ok(false)`
breaks; `Ok(true)` and any `Err` make the loop spin again. -/
def work_step (_dhcp : Except WifiError Unit) (poll : StepRes) : WaitStepRes :=
  match poll with
  | .ok false => .exitLoop
  | _ => .again

/-- Environment of one iteration of `read`'s wait loop: the engine step
result and the flag snapshot taken after it. -/
structure ReadIterEnv where
  poll : StepRes
  flags : RecvFlags

/-- Environment of one iteration of `write`'s wait loop. -/
structure WriteIterEnv where
  poll : StepRes
  flags : SendFlags

/-- Run `read`'s wait loop over a script of iteration environments.
`none` means the script was exhausted while the loop was still
spinning. -/
def read_wait_run : List ReadIterEnv → Option WaitStepRes
  | [] => none
  | e :: es =>
    match read_wait_step e.poll e.flags with
    | .again => read_wait_run es
    | r => some r

/-- Run `write`'s wait loop over a script of iteration environments. -/
def write_wait_run : List WriteIterEnv → Option WaitStepRes
  | [] => none
  | e :: es =>
    match write_wait_step e.poll e.flags with
    | .again => write_wait_run es
    | r => some r

/-- The post-wait drain loop of `read` and `write`: step until a step
returns `Ok(false)`; errors and `Ok(true)` are discarded and the loop
continues.  `true` iff the loop terminates within the script. -/
def drain_run : List StepRes → Bool
  | [] => false
  | .ok false :: _ => true
  | _ :: rs => drain_run rs

/-- Collaborator model of `TcpSocket::recv_slice` on a receive-ready
socket: copy up to the buffer's length from the `avail` bytes queued in
the receive buffer and return the count. -/
def recv_slice (avail buflen : Nat) : Nat := min avail buflen

/-- Result of a blocking socket operation: an unrecoverable fault, a
typed socket-I/O error, or success with a byte count. -/
inductive IoRes
  | fault
  | err (e : IoError)
  | ok (n : Nat)
deriving DecidableEq, Repr

/-- `true` exactly on the typed-error results. -/
def isErrRes : IoRes → Bool
  | .err _ => true
  | _ => false

/-- Shallow embedding of `Socket::read`: run the wait loop over `wait`,
mapping a fault to a fault, a closed exit to `Err(SocketClosed)`; once
the wait exits successfully, run the drain loop over `drain` and then
return the count copied by `recv_slice`.  `none` models a loop spinning
past its script. -/
def socket_read (wait : List ReadIterEnv) (drain : List StepRes)
    (avail buflen : Nat) : Option IoRes :=
  match read_wait_run wait with
  | none => none
  | some .fault => some .fault
  | some .closed => some (.err .SocketClosed)
  | some .exitLoop =>
    if drain_run drain then some (.ok (recv_slice avail buflen)) else none
  | some .again => none

/-- The submission loop of `Socket::write`: submit the unsent remainder
to `send_slice`; on `Ok(len)` add it to `written` and stop successfully
once `written ≥ buflen`; on `Err` stop with the wrapped error.  The
result carries the number of submission attempts made.  `responses`
scripts the engine's answer to each successive submission; `none` means
the script was exhausted mid-loop. -/
def send_loop (responses : List (Except SmolErr Nat)) (buflen written : Nat) :
    Option (Except IoError Nat × Nat) :=
  match responses with
  | [] => none
  | r :: rest =>
    match r with
    | .error e => some (.error (.Other e), 1)
    | .ok n =>
      if buflen ≤ written + n then some (.ok (written + n), 1)
      else
        match send_loop rest buflen (written + n) with
        | some (res, attempts) => some (res, attempts + 1)
        | none => none

/-- Shallow embedding of `Socket::write`: run the wait loop, the drain
loop, then the submission loop starting from `written = 0`. -/
def socket_write (wait : List WriteIterEnv) (drain : List StepRes)
    (sends : List (Except SmolErr Nat)) (buflen : Nat) : Option IoRes :=
  match write_wait_run wait with
  | none => none
  | some .fault => some .fault
  | some .closed => some (.err .SocketClosed)
  | some .exitLoop =>
    if drain_run drain then
      match send_loop sends buflen 0 with
      | none => none
      | some (.error e, _) => some (.err e)
      | some (.ok n, _) => some (.ok n)
    else none
  | some .again => none

/-! ## Addresses, DHCP lease handling (`Wifi::poll_dhcp`) and status -/

/-- An IPv4 address as four octets. -/
structure Ipv4 where
  a : Nat
  b : Nat
  c : Nat
  d : Nat
deriving DecidableEq, Repr

/-- The all-zero (unspecified) IPv4 address. -/
def Ipv4.unspecified : Ipv4 := ⟨0, 0, 0, 0⟩

/-- An IPv4 CIDR: address plus subnet length in bits. -/
structure Ipv4Cidr where
  addr : Ipv4
  plen : Nat
deriving DecidableEq, Repr

/-- An entry of the interface's address list: an IPv4 CIDR or some
other address family (opaque). -/
inductive IpCidr
  | ipv4 (c : Ipv4Cidr)
  | other (tag : Nat)
deriving DecidableEq, Repr

/-- `true` on IPv4 entries. -/
def IpCidr.isIpv4 : IpCidr → Bool
  | .ipv4 _ => true
  | .other _ => false

/-- Mirror of `smoltcp::socket::Dhcpv4Config`: the leased address, an
optional router (gateway), and three optional DNS server slots. -/
structure Dhcpv4Config where
  address : Ipv4Cidr
  router : Option Ipv4
  dns_servers : Option Ipv4 × Option Ipv4 × Option Ipv4
deriving DecidableEq, Repr

/-- Collaborator model of the engine's route table, at the interface the
module uses: `add_default_ipv4_route(gateway) -> Result` can fail when
the table's storage is full and no default entry exists to replace;
`remove_default_ipv4_route` always succeeds.  `has_space` models a free
storage slot. -/
structure RouteTable where
  default_route : Option Ipv4
  has_space : Bool
deriving DecidableEq, Repr

/-- Install `gw` as the default IPv4 route, failing with `Exhausted`
when no default entry exists and the storage is full. -/
def RouteTable.add_default_ipv4_route (rt : RouteTable) (gw : Ipv4) :
    Except SmolErr RouteTable :=
  match rt.default_route with
  | some _ => .ok { rt with default_route := some gw }
  | none =>
    if rt.has_space then .ok { rt with default_route := some gw }
    else .error .Exhausted

/-- Remove the default IPv4 route; a no-op when none exists. -/
def RouteTable.remove_default_ipv4_route (rt : RouteTable) : RouteTable :=
  { rt with default_route := none }

/-- The state of `Wifi` that `poll_dhcp` and `get_status` read and
write: the cached lease (`network_config`), the engine's route table
and address list, and whether a DHCP socket handle was found. -/
structure WifiIf where
  network_config : Option Dhcpv4Config
  routes : RouteTable
  ip_addrs : List IpCidr
  has_dhcp_socket : Bool
deriving DecidableEq, Repr

/-- Mirror of `smoltcp::socket::Dhcpv4Event`. -/
inductive Dhcpv4Event
  | Deconfigured
  | Configured (config : Dhcpv4Config)
deriving DecidableEq, Repr

/-- Result of `poll_dhcp`: an unrecoverable fault (the source's
`.unwrap()` on a missing IPv4 address entry), success with the new
state, or a typed error with the state as mutated before the failing
route insertion. -/
inductive PollDhcpRes
  | fault
  | ok (s : WifiIf)
  | err (e : WifiError) (s : WifiIf)
deriving DecidableEq, Repr

/-- The closure passed to `update_ip_addrs` in the source: find the
first IPv4 entry of the address list and overwrite it with `a`;
`none` models the `.unwrap()` fault when no IPv4 entry exists. -/
def update_first_ipv4 : List IpCidr → Ipv4Cidr → Option (List IpCidr)
  | [], _ => none
  | .ipv4 _ :: rest, a => some (.ipv4 a :: rest)
  | c :: rest, a =>
    match update_first_ipv4 rest a with
    | some rest' => some (c :: rest')
    | none => none

/-- Shallow embedding of `Wifi::poll_dhcp`, with the pending DHCP event
(the result of the DHCP socket's `poll()`) passed explicitly.  With no
DHCP handle or no event the call is a no-op returning success.  On
`Deconfigured` the cached lease is cleared and the default route
removed.  On `Configured` the lease is cached, the first IPv4 address
entry is replaced in place (no such entry is an unrecoverable fault),
and a present gateway is installed as the default route with an engine
failure propagated via `?` as `WifiError::SmolTcpError`. -/
def poll_dhcp (s : WifiIf) (event : Option Dhcpv4Event) : PollDhcpRes :=
  if s.has_dhcp_socket then
    match event with
    | none => .ok s
    | some .Deconfigured =>
      .ok { s with
        network_config := none
        routes := s.routes.remove_default_ipv4_route }
    | some (.Configured config) =>
      let s1 := { s with network_config := some config }
      match update_first_ipv4 s1.ip_addrs config.address with
      | none => .fault
      | some addrs =>
        let s2 := { s1 with ip_addrs := addrs }
        match config.router with
        | none => .ok s2
        | some gw =>
          match s2.routes.add_default_ipv4_route gw with
          | .ok rt => .ok { s2 with routes := rt }
          | .error e => .err (.SmolTcpError e) s2
  else .ok s

/-! ## Status translation (`Wifi::get_status`) -/

/-- Mirror of `crate::wifi::WifiState`, the radio driver's discrete
lifecycle state. -/
inductive WifiState
  | WifiReady
  | StaStart
  | StaStop
  | StaConnected
  | StaDisconnected
  | Invalid
deriving DecidableEq, Repr

/-- Mirror of `embedded_svc::ipv4::ClientSettings` as populated by the
source: address, gateway, numeric mask, primary and secondary DNS. -/
structure ClientSettings where
  ip : Ipv4
  gateway : Ipv4
  mask : Nat
  dns : Option Ipv4
  secondary_dns : Option Ipv4
deriving DecidableEq, Repr

/-- Mirror of `embedded_svc::wifi::ClientIpStatus` (the cases the source
produces). -/
inductive ClientIpStatus
  | Done (s : ClientSettings)
  | Waiting
deriving DecidableEq, Repr

/-- Mirror of `embedded_svc::wifi::ClientConnectionStatus` (the cases
the source produces). -/
inductive ClientConnectionStatus
  | Connected (ip : ClientIpStatus)
  | Disconnected
deriving DecidableEq, Repr

/-- Mirror of `embedded_svc::wifi::ClientStatus`. -/
inductive ClientStatus
  | Stopped
  | Starting
  | Started (c : ClientConnectionStatus)
deriving DecidableEq, Repr

/-- Mirror of `embedded_svc::wifi::ApStatus` (only `Stopped` is ever
produced). -/
inductive ApStatus
  | Stopped
deriving DecidableEq, Repr

/-- Mirror of `embedded_svc::wifi::Status`. -/
structure Status where
  client : ClientStatus
  ap : ApStatus
deriving DecidableEq, Repr

/-- Collaborator model of `Interface::ipv4_addr`: the address of the
first IPv4 entry of the interface's address list. -/
def ipv4_addr : List IpCidr → Option Ipv4
  | [] => none
  | .ipv4 c :: _ => some c.addr
  | .other _ :: rest => ipv4_addr rest

/-- Shallow embedding of `Wifi::get_status`, with the radio state passed
explicitly (the source reads it from `get_wifi_state()`).  In
`StaConnected`, a present non-unspecified IPv4 address yields
`Done` with that address, the cached lease's gateway (or zero), the
cached lease's first DNS entry (or zero), the fixed mask 24 and an
always-zero secondary DNS; otherwise the ip status is `Waiting`. -/
def get_status (wstate : WifiState) (s : WifiIf) : Status :=
  match wstate with
  | .WifiReady => ⟨.Stopped, .Stopped⟩
  | .StaStart => ⟨.Starting, .Stopped⟩
  | .StaStop => ⟨.Stopped, .Stopped⟩
  | .StaConnected =>
    let client_ip_status :=
      match ipv4_addr s.ip_addrs with
      | some ip =>
        if ip ≠ Ipv4.unspecified then
          let gw_bytes :=
            match s.network_config with
            | some config =>
              match config.router with
              | some router => router
              | none => Ipv4.unspecified
            | none => Ipv4.unspecified
          let dns_bytes :=
            match s.network_config with
            | some config =>
              match config.dns_servers.1 with
              | some dns_server => dns_server
              | none => Ipv4.unspecified
            | none => Ipv4.unspecified
          ClientIpStatus.Done
            { ip := ip
              gateway := gw_bytes
              mask := 24
              dns := some dns_bytes
              secondary_dns := some Ipv4.unspecified }
        else .Waiting
      | none => .Waiting
    ⟨.Started (.Connected client_ip_status), .Stopped⟩
  | .StaDisconnected => ⟨.Started .Disconnected, .Stopped⟩
  | .Invalid => ⟨.Stopped, .Stopped⟩

/-! ## Scan (`Wifi::scan_n`) -/

/-- Mirror of `embedded_svc::wifi::AuthMethod` (the variants the source
decodes). -/
inductive AuthMethod
  | None
  | WEP
  | WPA
  | WPA2Personal
  | WPAWPA2Personal
  | WPA2Enterprise
  | WPA3Personal
  | WPA2WPA3Personal
  | WAPIPersonal
deriving DecidableEq, Repr

/-- Mirror of `embedded_svc::wifi::SecondaryChannel`. -/
inductive SecondaryChannel
  | None
  | Above
  | Below
deriving DecidableEq, Repr

/-- Mirror of the driver's fixed-layout scan record
(`wifi_ap_record_t`), restricted to the fields the source reads: bssid
bytes, a zero-terminated ssid byte buffer, primary channel,
secondary-channel code, signed RSSI in dBm, numeric auth-mode code. -/
structure ApRecord where
  bssid : List Nat
  ssid : List Nat
  primary : Nat
  second : Nat
  rssi : Int
  authmode : Nat
deriving DecidableEq, Repr

/-- The source's closed match on the driver's auth-mode code, with the
numeric values of the `wifi_auth_mode_t_WIFI_AUTH_*` binding constants
(0 = open, 1 = WEP, 2 = WPA-PSK, 3 = WPA2-PSK, 4 = WPA/WPA2-PSK,
5 = WPA2-Enterprise, 6 = WPA3-PSK, 7 = WPA2/WPA3-PSK, 8 = WAPI-PSK).
`none` models the `panic!` arm for an unrecognized code. -/
def auth_method_of_code : Nat → Option AuthMethod
  | 0 => some .None
  | 1 => some .WEP
  | 2 => some .WPA
  | 3 => some .WPA2Personal
  | 4 => some .WPAWPA2Personal
  | 5 => some .WPA2Enterprise
  | 6 => some .WPA3Personal
  | 7 => some .WPA2WPA3Personal
  | 8 => some .WAPIPersonal
  | _ => Option.none

/-- The source's closed match on the secondary-channel code
(`wifi_second_chan_t_*`: 0 = none, 1 = above, 2 = below); `none` models
the `panic!` arm. -/
def secondary_of_code : Nat → Option SecondaryChannel
  | 0 => some .None
  | 1 => some .Above
  | 2 => some .Below
  | _ => Option.none

/-- Mirror of `embedded_svc::wifi::AccessPointInfo` as populated by the
source (the `protocols` field is left empty there and omitted here). -/
structure AccessPointInfo where
  ssid : List Nat
  bssid : List Nat
  channel : Nat
  secondary_channel : SecondaryChannel
  signal_strength : Nat
  auth_method : AuthMethod
deriving DecidableEq, Repr

/-- Decode one driver record as the source's loop body does: the ssid is
the zero-terminated byte string truncated to 32 bytes, the signal
strength is the absolute value of the signed RSSI, and the auth-mode and
secondary-channel codes go through the closed matches; `none` models the
`panic!` on an unrecognized code. -/
def decode_record (r : ApRecord) : Option AccessPointInfo :=
  match auth_method_of_code r.authmode, secondary_of_code r.second with
  | some auth_method, some secondary_channel =>
    some
      { ssid := (r.ssid.takeWhile (· ≠ 0)).take 32
        bssid := r.bssid
        channel := r.primary
        secondary_channel := secondary_channel
        signal_strength := r.rssi.natAbs
        auth_method := auth_method }
  | _, _ => Option.none

/-- Decode a list of records; any undecodable record is an unrecoverable
fault for the whole scan. -/
def decode_records : List ApRecord → Option (List AccessPointInfo)
  | [] => some []
  | r :: rest =>
    match decode_record r, decode_records rest with
    | some info, some rest' => some (info :: rest')
    | _, _ => Option.none

/-- Shallow embedding of `Wifi::scan_n` with capacity `N`: the driver
reports `M` found records and fills `records`; the count is clamped to
`N` when it exceeds `N`, the clamped count of records is decoded, and
the decoded list is returned together with the clamped count.  `none`
models the `panic!` on an unrecognized auth-mode or secondary-channel
code. -/
def scan_n (N M : Nat) (records : List ApRecord) :
    Option (List AccessPointInfo × Nat) :=
  let bss_total := if M > N then N else M
  match decode_records (records.take bss_total) with
  | some scanned => some (scanned, bss_total)
  | none => Option.none

end EspWifi

namespace EspWifi

/-! ## Theorems for the port allocator and configuration claims -/

theorem next_local_port_fst_eq_snd (s : Nat) :
    (next_local_port s).1 = (next_local_port s).2 := rfl

theorem next_local_port_range {s : Nat} (h1 : 41000 ≤ s) (h2 : s ≤ 65534) :
    41000 ≤ (next_local_port s).1 ∧ (next_local_port s).1 ≤ 65534 := by
  unfold next_local_port
  dsimp only
  split
  · omega
  · omega

theorem port_state_range {s : Nat} (h1 : 41000 ≤ s) (h2 : s ≤ 65534) :
    ∀ k, 41000 ≤ port_state s k ∧ port_state s k ≤ 65534 := by
  intro k
  induction k generalizing s with
  | zero => exact ⟨h1, h2⟩
  | succ n ih =>
    have hr := next_local_port_range h1 h2
    rw [next_local_port_fst_eq_snd] at hr
    exact ih hr.1 hr.2

theorem port_state_succ (s k : Nat) :
    port_state s (k + 1) = (next_local_port (port_state s k)).2 := by
  induction k generalizing s with
  | zero => rfl
  | succ n ih =>
    show port_state (next_local_port s).2 (n + 1) = _
    rw [ih]
    rfl

theorem port_return_succ (s k : Nat) :
    port_return s (k + 1) = (next_local_port (port_return s k)).1 := by
  unfold port_return
  rw [port_state_succ s k, next_local_port_fst_eq_snd (port_state s k)]

/-- Claim C9 counterexample: the first invocation of the allocator from
the initial counter value 41000 returns 41001, not 41000, so `next()`
does not return the current counter value before incrementing — it
increments first and returns the new value. -/
theorem c9_counterexample :
    port_return 41000 0 = 41001 ∧ 41000 < port_return 41000 0 := by
  constructor
  · rfl
  · decide

/-- Claim C9 (amended): `next_local_port` increments the counter and
returns the new value, resetting to 41000 when the incremented value
reaches 65535 (that very call returns 41000).  Starting from the initial
value 41000, across 24,535 successive invocations it never returns 0 and
never returns a value ≥ 65535 — every return lies in [41000, 65534] —
the first call returns 41001, and the call immediately following the one
that returns 65534 returns 41000. -/
theorem c9_port_allocator (k : Nat) (_hk : k < 24535) :
    port_return 41000 k ≠ 0 ∧ port_return 41000 k < 65535 ∧
    41000 ≤ port_return 41000 k ∧
    port_return 41000 0 = 41001 ∧
    (next_local_port 65534).1 = 41000 ∧
    (port_return 41000 k = 65534 → port_return 41000 (k + 1) = 41000) := by
  have hs := port_state_range (s := 41000) (by omega) (by omega) k
  have hr := next_local_port_range hs.1 hs.2
  refine ⟨?_, ?_, ?_, rfl, rfl, ?_⟩
  · unfold port_return; omega
  · unfold port_return; omega
  · unfold port_return; omega
  · intro h65534
    rw [port_return_succ, h65534]
    rfl

/-- Witness for `c9_port_allocator` at `k = 0`. -/
theorem c9_port_allocator_witness :
    (0 : Nat) < 24535 ∧
    port_return 41000 0 < 65535 ∧
    41000 ≤ port_return 41000 0 ∧
    port_return 41000 0 = 41001 ∧
    (next_local_port 65534).1 = 41000 :=
  ⟨by decide, (c9_port_allocator 0 (by decide)).2.1,
    (c9_port_allocator 0 (by decide)).2.2.1,
    (c9_port_allocator 0 (by decide)).2.2.2.1,
    (c9_port_allocator 0 (by decide)).2.2.2.2.1⟩

/-- Claim C10: `set_configuration` stores its argument into
`current_config` before validating or applying it, so even when the call
returns a typed error (non-zero driver connect code) or faults on a
non-client variant, a following `get_configuration` returns the new
argument rather than the previously applied configuration. -/
theorem c10_set_configuration_stores_first
    (connect : List Nat → List Nat → Int) (old conf : Configuration) :
    (set_configuration connect conf).1 = conf ∧
    get_configuration (set_configuration connect conf).1 = conf ∧
    ((set_configuration connect conf).2 = .fault →
      (set_configuration connect conf).1 = conf) ∧
    (∀ e, (set_configuration connect conf).2 = .err e →
      (set_configuration connect conf).1 = conf) ∧
    (old ≠ conf → (set_configuration connect conf).1 ≠ old) := by
  have hfst : (set_configuration connect conf).1 = conf := by
    cases conf with
    | None => rfl
    | Client ssid password =>
      unfold set_configuration
      dsimp only
      split <;> rfl
    | AccessPoint c => rfl
    | Mixed c a => rfl
  exact ⟨hfst, hfst, fun _ => hfst, fun _ _ => hfst,
    fun hne => by rw [hfst]; exact fun h => hne h.symm⟩

/-- Witness for `c10_set_configuration_stores_first` at a concrete
driver that rejects the connect request with code 5. -/
theorem c10_set_configuration_stores_first_witness :
    (set_configuration (fun _ _ => (5 : Int)) (.Client [1] [2])).2
      = .err (.Unknown 5) ∧
    (set_configuration (fun _ _ => (5 : Int)) (.Client [1] [2])).1
      = .Client [1] [2] ∧
    get_configuration
        (set_configuration (fun _ _ => (5 : Int)) (.Client [1] [2])).1
      = .Client [1] [2] :=
  ⟨by decide,
    (c10_set_configuration_stores_first (fun _ _ => (5 : Int)) .None
      (.Client [1] [2])).2.2.2.1 (.Unknown 5) (by decide),
    (c10_set_configuration_stores_first (fun _ _ => (5 : Int)) .None
      (.Client [1] [2])).2.1⟩

/-- Claim C4 counterexample: a flush run whose first engine step fails
does not terminate there — the loop continues — whereas treating the
error identically to "no more work" would terminate the loop at that
step.  With the one-element script `[Err Exhausted]` the loop exhausts
the script without breaking; appending an `Ok(false)` step shows the
loop consumed the error step and kept going (2 steps, not 1). -/
theorem c4_counterexample :
    socket_flush [Except.error SmolErr.Exhausted] = none ∧
    flush_run [Except.error SmolErr.Exhausted, Except.ok false] = some 2 :=
  ⟨rfl, rfl⟩

/-- Claim C4 (amended): `flush` steps the engine until a single step
reports no further pending work (`Ok(false)`) and then always returns
success; an engine step error is neither propagated nor does it
terminate the loop — the error is discarded and the loop keeps stepping
(as does an `Ok(true)` step). -/
theorem c4_flush (pre rest : List StepRes)
    (hpre : ∀ r ∈ pre, r ≠ Except.ok false) :
    flush_run (pre ++ Except.ok false :: rest) = some (pre.length + 1) ∧
    socket_flush (pre ++ Except.ok false :: rest) = some (Except.ok ()) := by
  have hrun : flush_run (pre ++ Except.ok false :: rest) = some (pre.length + 1) := by
    induction pre with
    | nil => rfl
    | cons r rs ih =>
      have hr : r ≠ Except.ok false := hpre r (List.mem_cons_self r rs)
      have ihs : flush_run (rs ++ Except.ok false :: rest) = some (rs.length + 1) :=
        ih (fun x hx => hpre x (List.mem_cons_of_mem r hx))
      show flush_run (r :: (rs ++ Except.ok false :: rest)) = _
      unfold flush_run
      match r, hr with
      | .ok true, _ => rw [ihs]; rfl
      | .error e, _ => rw [ihs]; rfl
      | .ok false, h => exact absurd rfl h
  refine ⟨hrun, ?_⟩
  unfold socket_flush
  rw [hrun]

/-- Witness for `c4_flush`: two error steps, one more-work step, then a
no-more-work step. -/
theorem c4_flush_witness :
    flush_run [Except.error SmolErr.Exhausted, Except.error SmolErr.Illegal,
        Except.ok true, Except.ok false] = some 4 ∧
    socket_flush [Except.error SmolErr.Exhausted, Except.error SmolErr.Illegal,
        Except.ok true, Except.ok false] = some (Except.ok ()) :=
  c4_flush
    [Except.error SmolErr.Exhausted, Except.error SmolErr.Illegal, Except.ok true]
    [] (by intro r hr; fin_cases hr <;> simp)

/-! ## Theorems for the socket read/write claims -/

theorem send_loop_nil (L w : Nat) : send_loop [] L w = none := rfl

theorem send_loop_err (e : SmolErr) (rest : List (Except SmolErr Nat)) (L w : Nat) :
    send_loop (Except.error e :: rest) L w = some (Except.error (IoError.Other e), 1) :=
  rfl

theorem send_loop_ok (n : Nat) (rest : List (Except SmolErr Nat)) (L w : Nat) :
    send_loop (Except.ok n :: rest) L w =
      if L ≤ w + n then some (Except.ok (w + n), 1)
      else
        match send_loop rest L (w + n) with
        | some (res, attempts) => some (res, attempts + 1)
        | none => none := rfl

theorem send_loop_complete (ns : List Nat) (L : Nat) :
    ∀ w, ns ≠ [] → w + ns.sum = L →
      ∃ k, send_loop (ns.map Except.ok) L w = some (Except.ok L, k) := by
  induction ns with
  | nil => intro w hne _; exact absurd rfl hne
  | cons n rest ih =>
    intro w _ hsum
    rw [List.map_cons, send_loop_ok]
    by_cases hfin : L ≤ w + n
    · have heq : w + n = L := by
        simp only [List.sum_cons] at hsum
        omega
      rw [if_pos hfin, heq]
      exact ⟨1, rfl⟩
    · rw [if_neg hfin]
      cases rest with
      | nil =>
        simp only [List.sum_cons, List.sum_nil] at hsum
        omega
      | cons m ms =>
        have hsum' : (w + n) + (m :: ms).sum = L := by
          simp only [List.sum_cons] at hsum ⊢
          omega
        obtain ⟨k, hk⟩ := ih (w + n) (by simp) hsum'
        rw [hk]
        exact ⟨k + 1, rfl⟩

theorem send_loop_fault (e : SmolErr) (rest : List (Except SmolErr Nat)) (L : Nat) :
    ∀ (ns : List Nat) (w : Nat), w + ns.sum < L →
      send_loop (ns.map Except.ok ++ Except.error e :: rest) L w
        = some (Except.error (IoError.Other e), ns.length + 1) := by
  intro ns
  induction ns with
  | nil =>
    intro w _
    rw [List.map_nil, List.nil_append, send_loop_err]
    rfl
  | cons n ms ih =>
    intro w hsum
    rw [List.map_cons, List.cons_append, send_loop_ok]
    have hn : ¬ L ≤ w + n := by
      simp only [List.sum_cons] at hsum
      omega
    rw [if_neg hn]
    have hrec := ih (w + n) (by simp only [List.sum_cons] at hsum ⊢; omega)
    rw [hrec]
    rfl

theorem socket_write_submit (wait : List WriteIterEnv) (drain : List StepRes)
    (sends : List (Except SmolErr Nat)) (L : Nat)
    (hw : write_wait_run wait = some .exitLoop) (hd : drain_run drain = true) :
    socket_write wait drain sends L =
      match send_loop sends L 0 with
      | none => none
      | some (.error e, _) => some (.err e)
      | some (.ok n, _) => some (.ok n) := by
  unfold socket_write
  rw [hw]
  simp only [hd, if_true]

/-- Claim C2: once `write` passes its send-ready wait (and its post-wait
drain), it repeatedly submits the unsent remainder to the socket's
transmit primitive until the entire buffer has been accepted, returning
`Ok(len(buffer))`: any nonempty run of partial acceptances summing to
the buffer length yields `Ok(len)`; in particular two partial
acceptances `a + b = len` with `a < len` yield `Ok(len)` after exactly
two submission attempts; and a fault on any individual submission —
on the very first one, or on the submission following any run of
partial acceptances that has not yet completed the buffer — makes
`write` return that fault wrapped as `IoError::Other`. -/
theorem c2_write (wait : List WriteIterEnv) (drain : List StepRes)
    (a b L : Nat) (e : SmolErr) (rest : List (Except SmolErr Nat))
    (hw : write_wait_run wait = some .exitLoop) (hd : drain_run drain = true) :
    (∀ ns : List Nat, ns ≠ [] → ns.sum = L →
      socket_write wait drain (ns.map Except.ok) L = some (.ok L)) ∧
    (a < L → a + b = L →
      send_loop [Except.ok a, Except.ok b] L 0 = some (Except.ok L, 2) ∧
      socket_write wait drain [Except.ok a, Except.ok b] L = some (.ok L)) ∧
    (send_loop (Except.error e :: rest) L 0
        = some (Except.error (IoError.Other e), 1) ∧
      socket_write wait drain (Except.error e :: rest) L
        = some (.err (.Other e))) ∧
    (∀ ns : List Nat, ns.sum < L →
      send_loop (ns.map Except.ok ++ Except.error e :: rest) L 0
        = some (Except.error (IoError.Other e), ns.length + 1) ∧
      socket_write wait drain (ns.map Except.ok ++ Except.error e :: rest) L
        = some (.err (.Other e))) := by
  refine ⟨?_, ?_, ?_, ?_⟩
  · intro ns hne hsum
    obtain ⟨k, hk⟩ := send_loop_complete ns L 0 hne (by omega)
    rw [socket_write_submit wait drain _ L hw hd, hk]
  · intro ha hab
    have hsl : send_loop [Except.ok a, Except.ok b] L 0 = some (Except.ok L, 2) := by
      rw [send_loop_ok, if_neg (by omega), send_loop_ok, if_pos (by omega)]
      rw [show (0 : Nat) + a + b = L by omega]
    refine ⟨hsl, ?_⟩
    rw [socket_write_submit wait drain _ L hw hd, hsl]
  · refine ⟨send_loop_err e rest L 0, ?_⟩
    rw [socket_write_submit wait drain _ L hw hd, send_loop_err]
  · intro ns hns
    have hsl := send_loop_fault e rest L ns 0 (by omega)
    refine ⟨hsl, ?_⟩
    rw [socket_write_submit wait drain _ L hw hd, hsl]

/-- Witness for `c2_write`: a send-ready socket, a drain that terminates
at once, buffer length 5 accepted as 2 + 3, an engine fault on the very
first submission, and an engine fault on the third submission after two
partial acceptances. -/
theorem c2_write_witness :
    socket_write [⟨Except.ok true, ⟨true, true, true⟩⟩] [Except.ok false]
        ([2, 3].map Except.ok) 5 = some (.ok 5) ∧
    send_loop [Except.ok 2, Except.ok 3] 5 0 = some (Except.ok 5, 2) ∧
    socket_write [⟨Except.ok true, ⟨true, true, true⟩⟩] [Except.ok false]
        [Except.ok 2, Except.ok 3] 5 = some (.ok 5) ∧
    send_loop [Except.error SmolErr.Exhausted] 5 0
      = some (Except.error (IoError.Other SmolErr.Exhausted), 1) ∧
    socket_write [⟨Except.ok true, ⟨true, true, true⟩⟩] [Except.ok false]
        [Except.error SmolErr.Exhausted] 5
      = some (.err (.Other SmolErr.Exhausted)) ∧
    send_loop [Except.ok 1, Except.ok 2, Except.error SmolErr.Exhausted] 5 0
      = some (Except.error (IoError.Other SmolErr.Exhausted), 3) ∧
    socket_write [⟨Except.ok true, ⟨true, true, true⟩⟩] [Except.ok false]
        [Except.ok 1, Except.ok 2, Except.error SmolErr.Exhausted] 5
      = some (.err (.Other SmolErr.Exhausted)) := by
  have h := c2_write [⟨Except.ok true, ⟨true, true, true⟩⟩] [Except.ok false]
    2 3 5 SmolErr.Exhausted [] rfl rfl
  have h2 := h.2.1 (by omega) (by omega)
  have h4 := h.2.2.2 [1, 2] (by simp)
  exact ⟨h.1 [2, 3] (by simp) (by simp), h2.1, h2.2, h.2.2.1.1, h.2.2.1.2,
    h4.1, h4.2⟩

/-- Claim C3: in `read`'s wait loop the receive-ready check comes before
the socket-closed checks in every iteration — whenever the socket
reports receive-ready the loop exits successfully, even on a socket that
is no longer open; the iteration fails with `SocketClosed` exactly when
the socket is not receive-ready and is either no longer open or can no
longer receive; a wait that ends closed makes `read` return
`Err(SocketClosed)`; after a successful wait (and drain), `read` copies
up to `len(buffer)` bytes from the receive buffer and returns the count,
where 0 is a valid non-error result. -/
theorem c3_read (p : Bool) (f : RecvFlags) (wait : List ReadIterEnv)
    (drain : List StepRes) (avail buflen : Nat) :
    (f.may_recv = true → read_wait_step (Except.ok p) f = .exitLoop) ∧
    (read_wait_step (Except.ok p) f = .closed ↔
      f.may_recv = false ∧ (f.is_open = false ∨ f.can_recv = false)) ∧
    (read_wait_run wait = some .closed →
      socket_read wait drain avail buflen = some (.err .SocketClosed)) ∧
    (read_wait_run wait = some .exitLoop → drain_run drain = true →
      socket_read wait drain avail buflen = some (.ok (recv_slice avail buflen)) ∧
      recv_slice avail buflen ≤ buflen) ∧
    recv_slice 0 buflen = 0 ∧ isErrRes (.ok 0) = false := by
  refine ⟨?_, ?_, ?_, ?_, ?_, rfl⟩
  · intro h
    unfold read_wait_step
    simp [h]
  · unfold read_wait_step
    rcases f with ⟨m, o, c⟩
    cases m <;> cases o <;> cases c <;> simp
  · intro h
    unfold socket_read
    rw [h]
  · intro h hd
    unfold socket_read
    rw [h]
    refine ⟨?_, Nat.min_le_right _ _⟩
    simp [hd]
  · exact Nat.zero_min _

/-- Witness for `c3_read`: a receive-ready snapshot on a socket that is
already no longer open (the final in-flight receive still succeeds),
3 bytes available, a 2-byte buffer. -/
theorem c3_read_witness :
    (RecvFlags.mk true false false).may_recv = true ∧
    read_wait_step (Except.ok true) ⟨true, false, false⟩ = .exitLoop ∧
    read_wait_run [⟨Except.ok true, ⟨true, false, false⟩⟩] = some .exitLoop ∧
    drain_run [Except.ok false] = true ∧
    socket_read [⟨Except.ok true, ⟨true, false, false⟩⟩] [Except.ok false] 3 2
      = some (.ok (recv_slice 3 2)) ∧
    recv_slice 3 2 ≤ 2 := by
  have h := c3_read true ⟨true, false, false⟩
    [⟨Except.ok true, ⟨true, false, false⟩⟩] [Except.ok false] 3 2
  have h4 := h.2.2.2.1 rfl rfl
  exact ⟨rfl, h.1 rfl, rfl, rfl, h4.1, h4.2⟩

/-- Claim C5 counterexample: an engine step failure in `read`'s wait
loop does not propagate as a typed socket-I/O error — it is an
unrecoverable fault (the source unwraps the step result) — and in
`open`'s loop (`work`) a step failure does not propagate either: the
loop simply spins again, i.e. the step is effectively retried. -/
theorem c5_counterexample :
    socket_read [⟨Except.error SmolErr.Exhausted, ⟨true, true, true⟩⟩] [] 7 5
      = some IoRes.fault ∧
    isErrRes IoRes.fault = false ∧
    work_step (Except.ok ()) (Except.error SmolErr.Exhausted) = WaitStepRes.again :=
  ⟨rfl, rfl, rfl⟩

/-- Claim C5 (amended): an engine step failure inside the main wait
loops is never surfaced as a typed socket-I/O error: in `read`'s and
`write`'s wait loops the step result is unwrapped, so a failure is an
unrecoverable fault that ends the call without producing a typed error;
in `open`'s loop (which steps the engine through `work`) the failure is
discarded and the loop spins again. -/
theorem c5_wait_loop_errors (e : SmolErr) (f : RecvFlags) (g : SendFlags)
    (d : Except WifiError Unit) (wait : List ReadIterEnv)
    (wwait : List WriteIterEnv) (avail buflen : Nat) (drain : List StepRes) :
    read_wait_step (Except.error e) f = .fault ∧
    write_wait_step (Except.error e) g = .fault ∧
    work_step d (Except.error e) = .again ∧
    read_wait_run (⟨Except.error e, f⟩ :: wait) = some .fault ∧
    write_wait_run (⟨Except.error e, g⟩ :: wwait) = some .fault ∧
    socket_read (⟨Except.error e, f⟩ :: wait) drain avail buflen
      = some IoRes.fault ∧
    isErrRes IoRes.fault = false :=
  ⟨rfl, rfl, rfl, rfl, rfl, rfl, rfl⟩

/-! ## Theorems for the DHCP lease claim -/

theorem remove_default_noop (rt : RouteTable) (h : rt.default_route = none) :
    rt.remove_default_ipv4_route = rt := by
  cases rt with
  | mk dr hs =>
    simp only [RouteTable.remove_default_ipv4_route]
    simp only at h
    rw [h]

theorem add_default_route_sets {rt rt' : RouteTable} {gw : Ipv4}
    (h : rt.add_default_ipv4_route gw = .ok rt') :
    rt'.default_route = some gw := by
  unfold RouteTable.add_default_ipv4_route at h
  cases hdr : rt.default_route with
  | some x =>
    rw [hdr] at h
    cases h
    rfl
  | none =>
    rw [hdr] at h
    by_cases hs : rt.has_space
    · rw [if_pos hs] at h
      cases h
      rfl
    · rw [if_neg hs] at h
      cases h

theorem update_first_ipv4_replaces (a : Ipv4Cidr) :
    ∀ (pre : List IpCidr) (c : Ipv4Cidr) (post : List IpCidr),
      (∀ x ∈ pre, x.isIpv4 = false) →
      update_first_ipv4 (pre ++ .ipv4 c :: post) a =
        some (pre ++ .ipv4 a :: post) := by
  intro pre
  induction pre with
  | nil => intro c post _; rfl
  | cons x xs ih =>
    intro c post hpre
    have hx : x.isIpv4 = false := hpre x (List.mem_cons_self x xs)
    cases x with
    | ipv4 c' => simp [IpCidr.isIpv4] at hx
    | other t =>
      have hrec := ih c post (fun y hy => hpre y (List.mem_cons_of_mem _ hy))
      simp only [List.cons_append, update_first_ipv4, List.append_eq, hrec]

/-- Claim C1: `poll_dhcp` with no pending event is a no-op returning
success; on a `Deconfigured` event the cached lease is cleared and the
default route removed, idempotently when no route exists; on a
`Configured` event the lease is replaced by the event's configuration
and the first (sole) IPv4 entry of the address table is replaced in
place by the event's address — absence of an IPv4 entry is an
unrecoverable fault, not a typed error — and a gateway carried by the
event is installed as the default route, with an engine table-capacity
failure propagated as the typed error `WifiError::SmolTcpError`. -/
theorem c1_poll_dhcp (s : WifiIf) (config : Dhcpv4Config) (gw : Ipv4)
    (hdhcp : s.has_dhcp_socket = true) :
    (poll_dhcp s none = .ok s) ∧
    (poll_dhcp s (some .Deconfigured) =
      .ok { s with network_config := none
                   routes := s.routes.remove_default_ipv4_route }) ∧
    (s.routes.default_route = none →
      poll_dhcp s (some .Deconfigured) = .ok { s with network_config := none }) ∧
    (update_first_ipv4 s.ip_addrs config.address = none →
      poll_dhcp s (some (.Configured config)) = .fault) ∧
    (∀ pre c post, (∀ x ∈ pre, IpCidr.isIpv4 x = false) →
      update_first_ipv4 (pre ++ .ipv4 c :: post) config.address =
        some (pre ++ .ipv4 config.address :: post)) ∧
    (∀ addrs, update_first_ipv4 s.ip_addrs config.address = some addrs →
      (config.router = none →
        poll_dhcp s (some (.Configured config)) =
          .ok { s with network_config := some config, ip_addrs := addrs }) ∧
      (config.router = some gw →
        (∀ rt, s.routes.add_default_ipv4_route gw = .ok rt →
          poll_dhcp s (some (.Configured config)) =
            .ok { s with network_config := some config, ip_addrs := addrs
                         routes := rt } ∧
          rt.default_route = some gw) ∧
        (∀ e, s.routes.add_default_ipv4_route gw = .error e →
          poll_dhcp s (some (.Configured config)) =
            .err (.SmolTcpError e)
              { s with network_config := some config, ip_addrs := addrs }))) := by
  refine ⟨?_, ?_, ?_, ?_, ?_, ?_⟩
  · simp [poll_dhcp, hdhcp]
  · simp [poll_dhcp, hdhcp]
  · intro hr
    simp [poll_dhcp, hdhcp, remove_default_noop s.routes hr]
  · intro hu
    simp [poll_dhcp, hdhcp, hu]
  · exact fun pre c post h => update_first_ipv4_replaces config.address pre c post h
  · intro addrs hu
    refine ⟨?_, ?_⟩
    · intro hrn
      simp [poll_dhcp, hdhcp, hu, hrn]
    · intro hrg
      refine ⟨?_, ?_⟩
      · intro rt hadd
        refine ⟨?_, add_default_route_sets hadd⟩
        simp [poll_dhcp, hdhcp, hu, hrg, hadd]
      · intro e hadd
        simp [poll_dhcp, hdhcp, hu, hrg, hadd]

/-- Witness for `c1_poll_dhcp`: concrete states exercising the no-op,
the idempotent deconfiguration, the missing-IPv4 fault, the successful
gateway installation, and the table-capacity error. -/
theorem c1_poll_dhcp_witness :
    poll_dhcp ⟨none, ⟨none, true⟩, [.ipv4 ⟨⟨1, 2, 3, 4⟩, 24⟩], true⟩ none =
      .ok ⟨none, ⟨none, true⟩, [.ipv4 ⟨⟨1, 2, 3, 4⟩, 24⟩], true⟩ ∧
    poll_dhcp ⟨none, ⟨none, true⟩, [.ipv4 ⟨⟨1, 2, 3, 4⟩, 24⟩], true⟩
        (some .Deconfigured) =
      .ok ⟨none, ⟨none, true⟩, [.ipv4 ⟨⟨1, 2, 3, 4⟩, 24⟩], true⟩ ∧
    poll_dhcp ⟨none, ⟨none, true⟩, [.other 9], true⟩
        (some (.Configured ⟨⟨⟨10, 0, 0, 2⟩, 24⟩, some ⟨10, 0, 0, 1⟩,
          (some ⟨8, 8, 8, 8⟩, none, none)⟩)) = .fault ∧
    poll_dhcp ⟨none, ⟨none, true⟩, [.ipv4 ⟨⟨1, 2, 3, 4⟩, 24⟩], true⟩
        (some (.Configured ⟨⟨⟨10, 0, 0, 2⟩, 24⟩, some ⟨10, 0, 0, 1⟩,
          (some ⟨8, 8, 8, 8⟩, none, none)⟩)) =
      .ok ⟨some ⟨⟨⟨10, 0, 0, 2⟩, 24⟩, some ⟨10, 0, 0, 1⟩,
            (some ⟨8, 8, 8, 8⟩, none, none)⟩,
          ⟨some ⟨10, 0, 0, 1⟩, true⟩, [.ipv4 ⟨⟨10, 0, 0, 2⟩, 24⟩], true⟩ ∧
    poll_dhcp ⟨none, ⟨none, false⟩, [.ipv4 ⟨⟨1, 2, 3, 4⟩, 24⟩], true⟩
        (some (.Configured ⟨⟨⟨10, 0, 0, 2⟩, 24⟩, some ⟨10, 0, 0, 1⟩,
          (some ⟨8, 8, 8, 8⟩, none, none)⟩)) =
      .err (.SmolTcpError .Exhausted)
        ⟨some ⟨⟨⟨10, 0, 0, 2⟩, 24⟩, some ⟨10, 0, 0, 1⟩,
          (some ⟨8, 8, 8, 8⟩, none, none)⟩,
         ⟨none, false⟩, [.ipv4 ⟨⟨10, 0, 0, 2⟩, 24⟩], true⟩ := by
  refine ⟨(c1_poll_dhcp ⟨none, ⟨none, true⟩, [.ipv4 ⟨⟨1, 2, 3, 4⟩, 24⟩], true⟩
      ⟨⟨⟨10, 0, 0, 2⟩, 24⟩, some ⟨10, 0, 0, 1⟩, (some ⟨8, 8, 8, 8⟩, none, none)⟩
      ⟨10, 0, 0, 1⟩ rfl).1, ?_, ?_, ?_, ?_⟩
  · exact (c1_poll_dhcp ⟨none, ⟨none, true⟩, [.ipv4 ⟨⟨1, 2, 3, 4⟩, 24⟩], true⟩
      ⟨⟨⟨10, 0, 0, 2⟩, 24⟩, some ⟨10, 0, 0, 1⟩, (some ⟨8, 8, 8, 8⟩, none, none)⟩
      ⟨10, 0, 0, 1⟩ rfl).2.2.1 rfl
  · exact (c1_poll_dhcp ⟨none, ⟨none, true⟩, [.other 9], true⟩
      ⟨⟨⟨10, 0, 0, 2⟩, 24⟩, some ⟨10, 0, 0, 1⟩, (some ⟨8, 8, 8, 8⟩, none, none)⟩
      ⟨10, 0, 0, 1⟩ rfl).2.2.2.1 rfl
  · exact (((c1_poll_dhcp ⟨none, ⟨none, true⟩, [.ipv4 ⟨⟨1, 2, 3, 4⟩, 24⟩], true⟩
      ⟨⟨⟨10, 0, 0, 2⟩, 24⟩, some ⟨10, 0, 0, 1⟩, (some ⟨8, 8, 8, 8⟩, none, none)⟩
      ⟨10, 0, 0, 1⟩ rfl).2.2.2.2.2 [.ipv4 ⟨⟨10, 0, 0, 2⟩, 24⟩] rfl).2 rfl).1
      ⟨some ⟨10, 0, 0, 1⟩, true⟩ rfl |>.1
  · exact (((c1_poll_dhcp ⟨none, ⟨none, false⟩, [.ipv4 ⟨⟨1, 2, 3, 4⟩, 24⟩], true⟩
      ⟨⟨⟨10, 0, 0, 2⟩, 24⟩, some ⟨10, 0, 0, 1⟩, (some ⟨8, 8, 8, 8⟩, none, none)⟩
      ⟨10, 0, 0, 1⟩ rfl).2.2.2.2.2 [.ipv4 ⟨⟨10, 0, 0, 2⟩, 24⟩] rfl).2 rfl).2
      .Exhausted rfl

/-! ## Theorems for the status claim -/

/-- Claim C6: with radio state `StaConnected`, when no non-unspecified
IPv4 address is assigned `get_status` reports client Started, connection
Connected and ip Waiting; when a non-unspecified address `A` is
assigned, it reports ip `Done` carrying `A`, the cached lease's gateway
(or the zero address when the lease or its gateway is absent), the
cached lease's first DNS entry (or zero) — the gateway and DNS defaults
acting independently of each other, for every lease shape — the fixed
constant mask 24 independent of the lease's own prefix length, and an
always-zero secondary DNS. -/
theorem c6_get_status (s : WifiIf) (A : Ipv4) (config : Dhcpv4Config)
    (p p' : Nat) :
    (ipv4_addr s.ip_addrs = none →
      get_status .StaConnected s =
        ⟨.Started (.Connected .Waiting), .Stopped⟩) ∧
    (ipv4_addr s.ip_addrs = some Ipv4.unspecified →
      get_status .StaConnected s =
        ⟨.Started (.Connected .Waiting), .Stopped⟩) ∧
    (ipv4_addr s.ip_addrs = some A → A ≠ Ipv4.unspecified →
      (s.network_config = none →
        get_status .StaConnected s =
          ⟨.Started (.Connected (.Done
            ⟨A, Ipv4.unspecified, 24, some Ipv4.unspecified,
              some Ipv4.unspecified⟩)), .Stopped⟩) ∧
      (s.network_config = some config →
        get_status .StaConnected s =
          ⟨.Started (.Connected (.Done
            ⟨A, config.router.getD Ipv4.unspecified, 24,
              some (config.dns_servers.1.getD Ipv4.unspecified),
              some Ipv4.unspecified⟩)), .Stopped⟩)) ∧
    (get_status .StaConnected
        { s with network_config := some ⟨⟨config.address.addr, p⟩,
            config.router, config.dns_servers⟩ } =
      get_status .StaConnected
        { s with network_config := some ⟨⟨config.address.addr, p'⟩,
            config.router, config.dns_servers⟩ }) := by
  refine ⟨?_, ?_, ?_, ?_⟩
  · intro h
    simp [get_status, h]
  · intro h
    simp [get_status, h]
  · intro hA hne
    refine ⟨?_, ?_⟩
    · intro hnc
      simp [get_status, hA, hne, hnc]
    · intro hnc
      obtain ⟨addr, router, d0, d1, d2⟩ := config
      cases router <;> cases d0 <;>
        simp [get_status, hA, hne, hnc, Option.getD]
  · rfl

/-- Witness for `c6_get_status`: the Waiting case on an interface with
no IPv4 entry; the full Done case with lease, gateway and DNS; and the
decoupled Done case of a lease carrying a gateway but no DNS entry. -/
theorem c6_get_status_witness :
    get_status .StaConnected ⟨none, ⟨none, true⟩, [.other 9], true⟩ =
      ⟨.Started (.Connected .Waiting), .Stopped⟩ ∧
    get_status .StaConnected
        ⟨some ⟨⟨⟨10, 0, 0, 2⟩, 16⟩, some ⟨10, 0, 0, 1⟩,
          (some ⟨8, 8, 8, 8⟩, none, none)⟩,
         ⟨some ⟨10, 0, 0, 1⟩, true⟩, [.ipv4 ⟨⟨10, 0, 0, 2⟩, 16⟩], true⟩ =
      ⟨.Started (.Connected (.Done
        ⟨⟨10, 0, 0, 2⟩, ⟨10, 0, 0, 1⟩, 24, some ⟨8, 8, 8, 8⟩,
          some Ipv4.unspecified⟩)), .Stopped⟩ ∧
    get_status .StaConnected
        ⟨some ⟨⟨⟨10, 0, 0, 2⟩, 16⟩, some ⟨10, 0, 0, 1⟩, (none, none, none)⟩,
         ⟨some ⟨10, 0, 0, 1⟩, true⟩, [.ipv4 ⟨⟨10, 0, 0, 2⟩, 16⟩], true⟩ =
      ⟨.Started (.Connected (.Done
        ⟨⟨10, 0, 0, 2⟩, ⟨10, 0, 0, 1⟩, 24, some Ipv4.unspecified,
          some Ipv4.unspecified⟩)), .Stopped⟩ := by
  refine ⟨?_, ?_, ?_⟩
  · exact (c6_get_status ⟨none, ⟨none, true⟩, [.other 9], true⟩
      Ipv4.unspecified ⟨⟨⟨0, 0, 0, 0⟩, 0⟩, none, (none, none, none)⟩ 0 0).1 rfl
  · exact ((c6_get_status
      ⟨some ⟨⟨⟨10, 0, 0, 2⟩, 16⟩, some ⟨10, 0, 0, 1⟩,
        (some ⟨8, 8, 8, 8⟩, none, none)⟩,
       ⟨some ⟨10, 0, 0, 1⟩, true⟩, [.ipv4 ⟨⟨10, 0, 0, 2⟩, 16⟩], true⟩
      ⟨10, 0, 0, 2⟩
      ⟨⟨⟨10, 0, 0, 2⟩, 16⟩, some ⟨10, 0, 0, 1⟩,
        (some ⟨8, 8, 8, 8⟩, none, none)⟩ 0 0).2.2.1 rfl (by decide)).2 rfl
  · exact ((c6_get_status
      ⟨some ⟨⟨⟨10, 0, 0, 2⟩, 16⟩, some ⟨10, 0, 0, 1⟩, (none, none, none)⟩,
       ⟨some ⟨10, 0, 0, 1⟩, true⟩, [.ipv4 ⟨⟨10, 0, 0, 2⟩, 16⟩], true⟩
      ⟨10, 0, 0, 2⟩
      ⟨⟨⟨10, 0, 0, 2⟩, 16⟩, some ⟨10, 0, 0, 1⟩, (none, none, none)⟩ 0 0).2.2.1
      rfl (by decide)).2 rfl

/-! ## Theorems for the scan claim -/

theorem scan_total_eq (M N : Nat) : (if M > N then N else M) = min M N := by
  split <;> omega

theorem decode_records_length (l : List ApRecord)
    (h : ∀ x ∈ l, (decode_record x).isSome = true) :
    ∃ recs, decode_records l = some recs ∧ recs.length = l.length := by
  induction l with
  | nil => exact ⟨[], rfl, rfl⟩
  | cons r rest ih =>
    have hr := h r (List.mem_cons_self r rest)
    obtain ⟨info, hinfo⟩ := Option.isSome_iff_exists.mp hr
    obtain ⟨recs, hrecs, hlen⟩ :=
      ih (fun x hx => h x (List.mem_cons_of_mem r hx))
    refine ⟨info :: recs, ?_, by simp [hlen]⟩
    simp [decode_records, hinfo, hrecs]

theorem decode_records_none (l : List ApRecord) (r : ApRecord)
    (hr : r ∈ l) (hnone : decode_record r = Option.none) :
    decode_records l = Option.none := by
  induction l with
  | nil => cases hr
  | cons x rest ih =>
    rcases List.mem_cons.mp hr with h | h
    · subst h
      simp [decode_records, hnone]
    · have hrest := ih h
      cases hx : decode_record x <;> simp [decode_records, hrest, hx]

/-- Claim C8: `scan_n` with capacity `N` against a driver reporting `M`
records clamps the count to `N` when `M > N` and returns exactly
`min M N` decoded records together with a reported count of `min M N`;
with `M = 0` it returns an empty record set without fault; each decoded
record's signal strength is the absolute value of the driver's signed
dBm reading; and an auth-mode code outside the closed enumeration makes
the record — and the whole scan — an unrecoverable fault rather than a
typed error. -/
theorem c8_scan (N M : Nat) (records : List ApRecord) (r : ApRecord)
    (info : AccessPointInfo) :
    (scan_n N 0 records = some ([], 0)) ∧
    (min M N ≤ records.length →
      (∀ x ∈ records.take (min M N), (decode_record x).isSome = true) →
      ∃ recs, scan_n N M records = some (recs, min M N) ∧
        recs.length = min M N) ∧
    (N < M → scan_n N M records = scan_n N N records) ∧
    (decode_record r = some info → info.signal_strength = r.rssi.natAbs) ∧
    (auth_method_of_code r.authmode = Option.none →
      decode_record r = Option.none) ∧
    (r ∈ records.take (min M N) → decode_record r = Option.none →
      scan_n N M records = Option.none) := by
  have ht : (if M > N then N else M) = min M N := scan_total_eq M N
  refine ⟨?_, ?_, ?_, ?_, ?_, ?_⟩
  · simp [scan_n, Nat.not_lt_zero, decode_records]
  · intro hlen hdec
    obtain ⟨recs, hrecs, hl⟩ := decode_records_length _ hdec
    refine ⟨recs, ?_, ?_⟩
    · simp only [scan_n, ht, hrecs]
    · rw [hl, List.length_take]
      omega
  · intro hNM
    simp only [scan_n, scan_total_eq]
    rw [Nat.min_eq_right (Nat.le_of_lt hNM), Nat.min_self]
  · intro h
    unfold decode_record at h
    cases ha : auth_method_of_code r.authmode with
    | none => rw [ha] at h; cases h
    | some am =>
      cases hs : secondary_of_code r.second with
      | none => rw [ha, hs] at h; cases h
      | some sc =>
        rw [ha, hs] at h
        cases h
        rfl
  · intro h
    cases hs : secondary_of_code r.second <;> simp [decode_record, h, hs]
  · intro hmem hnone
    have hdn := decode_records_none _ r hmem hnone
    simp only [scan_n, ht, hdn]

/-- Witness for `c8_scan`: capacity 2, driver reporting 3 decodable
records (clamped to 2), and a scan faulting on an unrecognized
auth-mode code 99. -/
theorem c8_scan_witness :
    scan_n 2 0 [] = some ([], 0) ∧
    (scan_n 2 3 [⟨[1], [65, 0], 1, 0, -40, 3⟩, ⟨[2], [66, 0], 6, 1, 30, 0⟩,
        ⟨[3], [67, 0], 11, 2, -80, 8⟩]).isSome = true ∧
    scan_n 2 3 [⟨[1], [65, 0], 1, 0, -40, 3⟩, ⟨[2], [66, 0], 6, 1, 30, 0⟩,
        ⟨[3], [67, 0], 11, 2, -80, 8⟩] =
      scan_n 2 2 [⟨[1], [65, 0], 1, 0, -40, 3⟩, ⟨[2], [66, 0], 6, 1, 30, 0⟩,
        ⟨[3], [67, 0], 11, 2, -80, 8⟩] ∧
    scan_n 1 1 [⟨[1], [65, 0], 1, 0, -40, 99⟩] = Option.none := by
  have h := c8_scan 2 3 [⟨[1], [65, 0], 1, 0, -40, 3⟩,
    ⟨[2], [66, 0], 6, 1, 30, 0⟩, ⟨[3], [67, 0], 11, 2, -80, 8⟩]
    ⟨[1], [65, 0], 1, 0, -40, 99⟩ ⟨[65], [1], 1, .None, 40, .WPA2Personal⟩
  refine ⟨h.1, ?_, h.2.2.1 (by omega), ?_⟩
  · obtain ⟨recs, hrecs, _⟩ := h.2.1 (by decide) (by decide)
    rw [hrecs]
    rfl
  · exact (c8_scan 1 1 [⟨[1], [65, 0], 1, 0, -40, 99⟩]
      ⟨[1], [65, 0], 1, 0, -40, 99⟩ ⟨[65], [1], 1, .None, 40, .WPA2Personal⟩).2.2.2.2.2
      (by decide) rfl

/-- Claim C7 counterexample: one iteration of `read`'s wait loop steps
the engine but performs no DHCP drain at all, so the DHCP drain is not
performed before the engine time-step of that iteration. -/
theorem c7_counterexample :
    ops_step_engine read_wait_iter_ops = true ∧
    ops_drain_dhcp read_wait_iter_ops = false := by
  decide

/-- Claim C7 (amended): only the `work` loop — the polling loop that
`open` and `disconnect` block on — drains DHCP, and there the drain
precedes the engine time-step of each iteration; the wait loops of
`read` and `write`, their post-wait drain loops, and `flush`'s loop step
the engine without performing any DHCP drain. -/
theorem c7_dhcp_before_step :
    work_iter_ops = [EngineOp.dhcpPoll, EngineOp.engineStep] ∧
    ops_drain_dhcp work_iter_ops = true ∧
    ops_drain_dhcp read_wait_iter_ops = false ∧
    ops_drain_dhcp write_wait_iter_ops = false ∧
    ops_drain_dhcp drain_iter_ops = false ∧
    ops_drain_dhcp flush_iter_ops = false ∧
    ops_step_engine read_wait_iter_ops = true ∧
    ops_step_engine write_wait_iter_ops = true := by
  decide

end EspWifi
